import Mathlib

/-!
Shallow embedding of the cost-governor handler in src/lambda/cost_alerter.py.

Modelling conventions:
* Dollar amounts (floats in the source) are rationals; the source only
  compares and sorts them, which rationals model exactly.
* Every external SDK / HTTP call the handler makes is recorded as an
  `Event` in an ordered trace, in the order the source issues the calls.
  Whether a call succeeds or raises `ClientError` is determined by flags
  in a `World` value describing the external environment.
* Notification message bodies (multi-line text with interpolated dollar
  figures) are elided; a notification event carries its title and
  priority, which is what identifies each send site in the source.
* Environment variables read by the handler are collected in a `Config`
  value, parsed the way the source parses them (string comparison with
  lowercase true, float parsing for thresholds).
-/

namespace CostAlerter

/-- Classification bucket derived from current spend vs thresholds. -/
inductive Tier
  | normal
  | alert
  | critical
deriving DecidableEq

/-- Outcome of the safety gate at the top of execute_resource_nuke. -/
inductive GateDecision
  | skip
  | dryRun
  | execute
deriving DecidableEq

/-- One external call made during an invocation, in source order.
`invCall` is a read-only inventory call in list_active_resources;
the describe/stop/delete constructors are the calls made in the
execute path of execute_resource_nuke; `gateEval` marks the reads of
ENABLE_AUTO_NUKE and NUKE_DRY_RUN at the top of execute_resource_nuke;
`notify` is a send_ntfy_alert POST carrying title and priority. -/
inductive Event
  | invCall (api : String)
  | notify (title : String) (priority : String)
  | gateEval (enable : Bool) (dryRun : Bool)
  | describeInstances
  | stopInstances (ids : List String)
  | describeNatGateways
  | deleteNatGateway (gwId : String)
  | describeDbInstances
  | stopDbInstance (dbId : String)
deriving DecidableEq

/-- Calls that change cloud state: stopping instances, deleting
gateways, pausing databases.  Everything else is read-only or a
notification. -/
def isMutating : Event → Bool
  | .stopInstances _ => true
  | .deleteNatGateway _ => true
  | .stopDbInstance _ => true
  | _ => false

def isNotify : Event → Bool
  | .notify _ _ => true
  | _ => false

def isGateEval : Event → Bool
  | .gateEval _ _ => true
  | _ => false

def isDeleteNat : Event → Bool
  | .deleteNatGateway _ => true
  | _ => false

/-- An RDS instance as seen by describe_db_instances: its identifier,
its status string, and whether a stop_db_instance call on it raises
`ClientError` (some RDS types cannot be stopped). -/
structure DbInstance where
  dbId : String
  status : String
  stopRejected : Bool
deriving DecidableEq

/-- An available NAT gateway, with a flag telling whether the
delete_nat_gateway call on it raises `ClientError`. -/
structure NatGateway where
  gwId : String
  deleteFails : Bool
deriving DecidableEq

/-- The external cloud environment of one invocation: the resources the
describe calls return and which calls raise `ClientError`. -/
structure World where
  /-- ids of EC2 instances in state running (used by the nuke stop). -/
  runningInstances : List String
  /-- number of additional instances in state pending (inventory counts
  running and pending). -/
  invPendingInstanceCount : Nat
  /-- describe_instances in the execute path raises. -/
  describeInstancesFails : Bool
  /-- stop_instances raises. -/
  stopInstancesFails : Bool
  /-- available NAT gateways. -/
  natGateways : List NatGateway
  /-- number of additional gateways in state pending (inventory counts
  available and pending). -/
  invPendingNatCount : Nat
  /-- describe_nat_gateways in the execute path raises. -/
  describeNatFails : Bool
  /-- RDS instances returned by describe_db_instances. -/
  dbInstances : List DbInstance
  /-- describe_db_instances in the execute path raises. -/
  describeDbsFails : Bool
  /-- per-category inventory failures (caught and skipped). -/
  invEc2Fails : Bool
  invRdsFails : Bool
  invNatFails : Bool
  invLambdaFails : Bool
  invS3Fails : Bool
  lambdaFunctionCount : Nat
  s3BucketCount : Nat
  /-- whether the ntfy POST returns HTTP 200 (send_ntfy_alert result;
  every caller ignores it). -/
  notifyDelivers : Bool
deriving DecidableEq

/-- The environment variables the handler reads, already parsed:
ALERT_THRESHOLD, CRITICAL_THRESHOLD, ENABLE_AUTO_NUKE, NUKE_DRY_RUN,
SEND_DAILY_SUMMARY. -/
structure Config where
  alertThreshold : ℚ
  criticalThreshold : ℚ
  enableAutoNuke : Bool
  nukeDryRun : Bool
  sendDailySummary : Bool
deriving DecidableEq

/-- Result of get_current_month_costs (a successful fetch): the summed
total and the per-service breakdown in the iteration order of the Cost
Explorer response. -/
structure CostInfo where
  total_cost : ℚ
  service_breakdown : List (String × ℚ)
deriving DecidableEq

/-- send_ntfy_alert: one POST to the ntfy server; returns whether the
response status was 200 (False on URLError).  The message body is
elided, see the module comment. -/
def send_ntfy_alert (w : World) (title : String) (priority : String) :
    Bool × List Event :=
  (w.notifyDelivers, [Event.notify title priority])

/-- list_active_resources: five read-only calls, each in its own
try/except that swallows `ClientError` and omits the category; a
category with count zero is also omitted. -/
def list_active_resources (w : World) : List String × List Event :=
  let ec2Lines :=
    if w.invEc2Fails then []
    else
      let c := w.runningInstances.length + w.invPendingInstanceCount
      if 0 < c then ["EC2 Instances: " ++ toString c] else []
  let rdsLines :=
    if w.invRdsFails then []
    else
      let c := w.dbInstances.length
      if 0 < c then ["RDS Instances: " ++ toString c] else []
  let natLines :=
    if w.invNatFails then []
    else
      let c := w.natGateways.length + w.invPendingNatCount
      if 0 < c then ["NAT Gateways: " ++ toString c] else []
  let lamLines :=
    if w.invLambdaFails then []
    else if 0 < w.lambdaFunctionCount then
      ["Lambda Functions: " ++ toString w.lambdaFunctionCount]
    else []
  let s3Lines :=
    if w.invS3Fails then []
    else if 0 < w.s3BucketCount then
      ["S3 Buckets: " ++ toString w.s3BucketCount]
    else []
  (ec2Lines ++ rdsLines ++ natLines ++ lamLines ++ s3Lines,
   [Event.invCall "ec2.describe_instances",
    Event.invCall "rds.describe_db_instances",
    Event.invCall "ec2.describe_nat_gateways",
    Event.invCall "lambda.list_functions",
    Event.invCall "s3.list_buckets"])

/-- trigger_nuke_warning: list the active resources, then send the
urgent pre-action warning.  The send result is ignored by the source. -/
def trigger_nuke_warning (w : World) : List Event :=
  (list_active_resources w).2 ++
    (send_ntfy_alert w "CRITICAL: AWS Cost Emergency" "urgent").2

/-- The safety interlock at the top of execute_resource_nuke: the
branch structure of the two early returns on enable_nuke and dry_run. -/
def actionGate (enable : Bool) (dryRun : Bool) : GateDecision :=
  if !enable then .skip
  else if dryRun then .dryRun
  else .execute

/-- The dictionary execute_resource_nuke returns.  The source returns a
dict whose keys differ per branch; absent keys are `none` / `[]` here. -/
structure NukeResult where
  status : String
  reason : Option String
  resources : Option (List String)
  terminated : List String
  errors : List String
deriving DecidableEq

/-- The NAT-gateway loop of the execute path: gateways are deleted one
by one inside a single try block, so the first failing delete raises,
appends one category error, and abandons the rest of the loop.
Returns (terminated additions, error additions, events). -/
def nukeNatLoop : List NatGateway → List String × List String × List Event
  | [] => ([], [], [])
  | gw :: rest =>
    if gw.deleteFails then
      ([], ["NAT Gateway: ClientError"], [Event.deleteNatGateway gw.gwId])
    else
      let r := nukeNatLoop rest
      (("Deleted NAT Gateway: " ++ gw.gwId) :: r.1, r.2.1,
       Event.deleteNatGateway gw.gwId :: r.2.2)

/-- The RDS loop of the execute path: only instances whose status is
available are stopped; a per-instance stop_db_instance that raises is
swallowed (`except ClientError: pass`), recording nothing.  The loop
never appends to errors.  Returns (terminated additions, events). -/
def nukeDbLoop : List DbInstance → List String × List Event
  | [] => ([], [])
  | db :: rest =>
    if db.status = "available" then
      let r := nukeDbLoop rest
      if db.stopRejected then (r.1, Event.stopDbInstance db.dbId :: r.2)
      else (("Stopped RDS: " ++ db.dbId) :: r.1,
            Event.stopDbInstance db.dbId :: r.2)
    else nukeDbLoop rest

/-- The EC2 block of the execute path: describe running instances, and
if any, stop them all in one call; a `ClientError` anywhere in the
block appends one category error.  Returns
(terminated additions, error additions, events). -/
def nukeEc2Block (w : World) : List String × List String × List Event :=
  if w.describeInstancesFails then
    ([], ["EC2: ClientError"], [Event.describeInstances])
  else if w.runningInstances.isEmpty then ([], [], [Event.describeInstances])
  else if w.stopInstancesFails then
    ([], ["EC2: ClientError"],
     [Event.describeInstances, Event.stopInstances w.runningInstances])
  else
    (["Stopped " ++ toString w.runningInstances.length ++ " EC2 instances"],
     [],
     [Event.describeInstances, Event.stopInstances w.runningInstances])

/-- The NAT block: describe, then the delete loop; a failing describe
appends one category error and skips the loop. -/
def nukeNatBlock (w : World) : List String × List String × List Event :=
  if w.describeNatFails then
    ([], ["NAT Gateway: ClientError"], [Event.describeNatGateways])
  else
    let r := nukeNatLoop w.natGateways
    (r.1, r.2.1, Event.describeNatGateways :: r.2.2)

/-- The RDS block: describe, then the stop loop; a failing describe
appends one category error and skips the loop. -/
def nukeRdsBlock (w : World) : List String × List String × List Event :=
  if w.describeDbsFails then
    ([], ["RDS: ClientError"], [Event.describeDbInstances])
  else
    let r := nukeDbLoop w.dbInstances
    (r.1, [], Event.describeDbInstances :: r.2)

/-- execute_resource_nuke: read the gate variables, then either skip
(with a notification), dry-run (list, notify), or execute the three
category blocks in order and send one completion notification. -/
def execute_resource_nuke (cfg : Config) (w : World) :
    NukeResult × List Event :=
  let gateEv := [Event.gateEval cfg.enableAutoNuke cfg.nukeDryRun]
  if !cfg.enableAutoNuke then
    ({ status := "skipped", reason := some "auto_nuke_disabled",
       resources := none, terminated := [], errors := [] },
     gateEv ++ (send_ntfy_alert w "Nuke Skipped - Manual Action Required" "high").2)
  else if cfg.nukeDryRun then
    let inv := list_active_resources w
    ({ status := "dry_run", reason := none, resources := some inv.1,
       terminated := [], errors := [] },
     gateEv ++ inv.2 ++ (send_ntfy_alert w "Nuke DRY RUN" "high").2)
  else
    let ec2 := nukeEc2Block w
    let nat := nukeNatBlock w
    let rds := nukeRdsBlock w
    ({ status := "executed", reason := none, resources := none,
       terminated := ec2.1 ++ nat.1 ++ rds.1,
       errors := ec2.2.1 ++ nat.2.1 ++ rds.2.1 },
     gateEv ++ ec2.2.2 ++ nat.2.2 ++ rds.2.2 ++
       (send_ntfy_alert w "Resource Nuke Complete" "urgent").2)

/-- Stable sort by cost descending: the
sorted(service_breakdown.items(), key=cost, reverse=True) call.  Python
sorted is a stable sort; a stable insertion sort computes the same
list. -/
def sortByCostDesc (l : List (String × ℚ)) : List (String × ℚ) :=
  l.insertionSort (fun x y => y.2 ≤ x.2)

/-- The services format_top_services lists: sort by cost descending,
slice the first top_n (= 5 at every call site), then keep only entries
with cost above 0.01. -/
def topServices (breakdown : List (String × ℚ)) : List (String × ℚ) :=
  ((sortByCostDesc breakdown).take 5).filter (fun x => 0.01 < x.2)

/-- format_top_services: render the listed services one line each, or
the placeholder when nothing clears the cutoff.  The two-decimal float
rendering of the source is abstracted by toString. -/
def format_top_services (breakdown : List (String × ℚ)) : String :=
  let lines := (topServices breakdown).map
    (fun x => "  - " ++ x.1 ++ ": $" ++ toString x.2)
  if lines.isEmpty then "  (No significant costs yet)"
  else String.intercalate (String.mk [Char.ofNat 10]) lines

/-- The JSON report lambda_handler returns. -/
structure HandlerResponse where
  statusCode : Nat
  current_cost : ℚ
  alert_threshold : ℚ
  critical_threshold : ℚ
  forecasted_cost : Option ℚ
  alert_sent : Bool
  nuke_triggered : Bool
  nuke_result : Option NukeResult
deriving DecidableEq

/-- lambda_handler after a successful cost fetch: classify against the
critical threshold first, then the alert threshold; the critical path
sends the warning, runs execute_resource_nuke and attaches its result;
the alert path sends one alert; the normal path sends a summary only
when SEND_DAILY_SUMMARY is set.  (The dollar amount the source
interpolates into the alert and summary titles is elided.) -/
def lambda_handler (cfg : Config) (w : World) (costInfo : CostInfo)
    (forecast : Option ℚ) : HandlerResponse × List Event :=
  let current := costInfo.total_cost
  let base : HandlerResponse :=
    { statusCode := 200, current_cost := current,
      alert_threshold := cfg.alertThreshold,
      critical_threshold := cfg.criticalThreshold,
      forecasted_cost := forecast, alert_sent := false,
      nuke_triggered := false, nuke_result := none }
  if cfg.criticalThreshold ≤ current then
    let warnEv := trigger_nuke_warning w
    let nuke := execute_resource_nuke cfg w
    ({ base with nuke_triggered := true, nuke_result := some nuke.1,
                 alert_sent := true },
     warnEv ++ nuke.2)
  else if cfg.alertThreshold ≤ current then
    ({ base with alert_sent := true },
     (send_ntfy_alert w "AWS Cost Alert" "high").2)
  else if cfg.sendDailySummary then
    (base, (send_ntfy_alert w "AWS Cost Summary" "low").2)
  else (base, [])

/-- The classifier of spec section 4.1, read off the branch structure
of lambda_handler: critical first, inclusive boundaries. -/
def classifyTier (total : ℚ) (alertLevel : ℚ) (criticalLevel : ℚ) : Tier :=
  if criticalLevel ≤ total then .critical
  else if alertLevel ≤ total then .alert
  else .normal

/-! ## Helper lemmas -/

/-- The inventory trace is the same five read-only calls whatever the
world returns. -/
lemma list_active_resources_trace (w : World) :
    (list_active_resources w).2 =
      [Event.invCall "ec2.describe_instances",
       Event.invCall "rds.describe_db_instances",
       Event.invCall "ec2.describe_nat_gateways",
       Event.invCall "lambda.list_functions",
       Event.invCall "s3.list_buckets"] := rfl

/-- Every event the NAT loop emits is a gateway deletion. -/
lemma nukeNatLoop_events (l : List NatGateway) :
    ∀ e ∈ (nukeNatLoop l).2.2, ∃ s, e = Event.deleteNatGateway s := by
  induction l with
  | nil => intro e he; simp [nukeNatLoop] at he
  | cons gw rest ih =>
    intro e he
    by_cases hf : gw.deleteFails
    · simp [nukeNatLoop, hf] at he
      exact ⟨gw.gwId, he⟩
    · simp [nukeNatLoop, hf] at he
      rcases he with he | he
      · exact ⟨gw.gwId, he⟩
      · exact ih e he

/-- The events of the RDS loop: one stop call per available instance,
in order. -/
lemma nukeDbLoop_events (l : List DbInstance) :
    (nukeDbLoop l).2 =
      (l.filter (fun d => d.status = "available")).map
        (fun d => Event.stopDbInstance d.dbId) := by
  induction l with
  | nil => simp [nukeDbLoop]
  | cons db rest ih =>
    by_cases hs : db.status = "available"
    · by_cases hr : db.stopRejected <;>
        simp [nukeDbLoop, hs, hr, List.filter_cons, ih]
    · simp [nukeDbLoop, hs, List.filter_cons, ih]

/-- The successes the RDS loop records: exactly the available instances
whose stop call is accepted. -/
lemma nukeDbLoop_terminated (l : List DbInstance) :
    (nukeDbLoop l).1 =
      (l.filter (fun d => d.status = "available" ∧ ¬d.stopRejected)).map
        (fun d => "Stopped RDS: " ++ d.dbId) := by
  induction l with
  | nil => simp [nukeDbLoop]
  | cons db rest ih =>
    by_cases hs : db.status = "available"
    · by_cases hr : db.stopRejected <;>
        simp [nukeDbLoop, hs, hr, List.filter_cons, ih]
    · simp [nukeDbLoop, hs, List.filter_cons, ih]

/-- The NAT loop on a list whose first failing gateway is g: the
gateways before g are deleted and recorded, g is attempted and turns
into the single category error, and nothing after g is attempted. -/
lemma nukeNatLoop_break (pre : List NatGateway) (g : NatGateway)
    (post : List NatGateway) (hpre : ∀ p ∈ pre, p.deleteFails = false)
    (hg : g.deleteFails = true) :
    nukeNatLoop (pre ++ g :: post) =
      (pre.map (fun p => "Deleted NAT Gateway: " ++ p.gwId),
       ["NAT Gateway: ClientError"],
       pre.map (fun p => Event.deleteNatGateway p.gwId) ++
         [Event.deleteNatGateway g.gwId]) := by
  induction pre with
  | nil => simp [nukeNatLoop, hg]
  | cons p rest ih =>
    have hp : p.deleteFails = false := hpre p (by simp)
    have hrest : ∀ q ∈ rest, q.deleteFails = false :=
      fun q hq => hpre q (by simp [hq])
    simp [nukeNatLoop, hp, ih hrest]

/-- Every NAT delete the loop attempts is recorded: either its success
message is in the terminated part or the category error is recorded. -/
lemma nukeNatLoop_attempt_recorded (l : List NatGateway) (s : String)
    (h : Event.deleteNatGateway s ∈ (nukeNatLoop l).2.2) :
    ("Deleted NAT Gateway: " ++ s) ∈ (nukeNatLoop l).1 ∨
      "NAT Gateway: ClientError" ∈ (nukeNatLoop l).2.1 := by
  induction l with
  | nil => simp [nukeNatLoop] at h
  | cons gw rest ih =>
    by_cases hf : gw.deleteFails
    · simp [nukeNatLoop, hf] at h ⊢
    · simp [nukeNatLoop, hf] at h ⊢
      rcases h with h | h
      · exact Or.inl (Or.inl (by simp [h]))
      · rcases ih h with h2 | h2
        · exact Or.inl (Or.inr h2)
        · exact Or.inr h2

/-- The EC2 block emits only its describe and its bulk stop call. -/
lemma nukeEc2Block_events (w : World) :
    ∀ e ∈ (nukeEc2Block w).2.2,
      e = Event.describeInstances ∨
        e = Event.stopInstances w.runningInstances := by
  intro e he
  unfold nukeEc2Block at he
  split_ifs at he <;> simp at he <;> tauto

/-- The NAT block emits only its describe and gateway deletions. -/
lemma nukeNatBlock_events (w : World) :
    ∀ e ∈ (nukeNatBlock w).2.2,
      e = Event.describeNatGateways ∨
        ∃ s, e = Event.deleteNatGateway s := by
  intro e he
  unfold nukeNatBlock at he
  split_ifs at he
  · simp at he; tauto
  · simp at he
    rcases he with he | he
    · tauto
    · exact Or.inr (nukeNatLoop_events _ e he)

/-- The RDS block emits only its describe and per-database stops. -/
lemma nukeRdsBlock_events (w : World) :
    ∀ e ∈ (nukeRdsBlock w).2.2,
      e = Event.describeDbInstances ∨
        ∃ s, e = Event.stopDbInstance s := by
  intro e he
  unfold nukeRdsBlock at he
  split_ifs at he
  · simp at he; tauto
  · simp at he
    rcases he with he | he
    · tauto
    · rw [nukeDbLoop_events] at he
      simp at he
      rcases he with ⟨d, _, hd⟩
      exact Or.inr ⟨d.dbId, hd.symm⟩

/-- The describe call of each category block is always in its events. -/
lemma nuke_blocks_describe_mem (w : World) :
    Event.describeInstances ∈ (nukeEc2Block w).2.2 ∧
    Event.describeNatGateways ∈ (nukeNatBlock w).2.2 ∧
    Event.describeDbInstances ∈ (nukeRdsBlock w).2.2 := by
  refine ⟨?_, ?_, ?_⟩ <;>
    [unfold nukeEc2Block; unfold nukeNatBlock; unfold nukeRdsBlock] <;>
    split_ifs <;> simp

/-! ## Claims -/

/-- C1: tier classification is a pure function of (total, thresholds):
total at or above criticalLevel is Critical regardless of alertLevel
(so the critical check takes precedence, also when alertLevel exceeds
criticalLevel); otherwise total at or above alertLevel is Alert;
otherwise Normal.  Both boundaries are inclusive. -/
theorem C1_classifyTier_pure (total alertLevel criticalLevel : ℚ) :
    (criticalLevel ≤ total →
      classifyTier total alertLevel criticalLevel = Tier.critical) ∧
    (total < criticalLevel → alertLevel ≤ total →
      classifyTier total alertLevel criticalLevel = Tier.alert) ∧
    (total < criticalLevel → total < alertLevel →
      classifyTier total alertLevel criticalLevel = Tier.normal) := by
  refine ⟨fun h => ?_, fun h1 h2 => ?_, fun h1 h2 => ?_⟩
  · simp [classifyTier, h]
  · simp [classifyTier, not_le.mpr h1, h2]
  · simp [classifyTier, not_le.mpr h1, not_le.mpr h2]

/-- C1 witness: at total 50, alertLevel 60, criticalLevel 50 the tier
is Critical: the boundary is inclusive and the critical check wins even
though alertLevel exceeds criticalLevel. -/
theorem C1_witness : classifyTier 50 60 50 = Tier.critical :=
  (C1_classifyTier_pure 50 60 50).1 (by norm_num)

/-- C10: every invocation that returns does so with statusCode 200,
whatever the tier, the gate outcome, or any failures: the field is set
once at the top of lambda_handler and never updated. -/
theorem C10_statusCode_always_200 (cfg : Config) (w : World)
    (ci : CostInfo) (fc : Option ℚ) :
    (lambda_handler cfg w ci fc).1.statusCode = 200 := by
  by_cases hc : cfg.criticalThreshold ≤ ci.total_cost
  · simp [lambda_handler, hc]
  · by_cases ha : cfg.alertThreshold ≤ ci.total_cost
    · simp [lambda_handler, hc, ha]
    · by_cases hd : cfg.sendDailySummary <;>
        simp [lambda_handler, hc, ha, hd]

/-- C8: on the breakdown A 40, B 35, C 0.001, D 20, E 10, F 5 the
top-services formatter lists exactly A, B, D, E, F in that order and
omits C; and on every breakdown each listed entry has cost strictly
above 0.01 and the listed entries are in descending cost order. -/
theorem C8_top_services (bd : List (String × ℚ)) :
    (topServices
        [("A", 40), ("B", 35), ("C", 0.001), ("D", 20), ("E", 10),
         ("F", 5)]).map Prod.fst = ["A", "B", "D", "E", "F"] ∧
    (∀ x ∈ topServices bd, (0.01 : ℚ) < x.2) ∧
    (topServices bd).Pairwise (fun x y => y.2 ≤ x.2) := by
  refine ⟨?_, fun x hx => ?_, ?_⟩
  · norm_num [topServices, sortByCostDesc, List.insertionSort,
      List.orderedInsert]
  · have := (List.mem_filter.mp hx).2
    simpa using this
  · have hsort : (sortByCostDesc bd).Pairwise (fun x y => y.2 ≤ x.2) := by
      haveI : IsTotal (String × ℚ) (fun x y => y.2 ≤ x.2) :=
        ⟨fun a b => le_total b.2 a.2⟩
      haveI : IsTrans (String × ℚ) (fun x y => y.2 ≤ x.2) :=
        ⟨fun a b c h1 h2 => le_trans h2 h1⟩
      exact List.sorted_insertionSort _ bd
    exact ((hsort.sublist ((sortByCostDesc bd).take_sublist 5)).sublist
      (List.filter_sublist _))

/-! ## Concrete fixtures for witnesses and counterexamples -/

/-- A world with no active resources, no failing calls, and a healthy
notification channel. -/
def emptyWorld : World :=
  { runningInstances := [], invPendingInstanceCount := 0,
    describeInstancesFails := false, stopInstancesFails := false,
    natGateways := [], invPendingNatCount := 0, describeNatFails := false,
    dbInstances := [], describeDbsFails := false, invEc2Fails := false,
    invRdsFails := false, invNatFails := false, invLambdaFails := false,
    invS3Fails := false, lambdaFunctionCount := 0, s3BucketCount := 0,
    notifyDelivers := true }

/-- A world with resources in every category and no failing calls. -/
def busyWorld : World :=
  { emptyWorld with
    runningInstances := ["i-1", "i-2"],
    natGateways := [{ gwId := "nat-1", deleteFails := false }],
    dbInstances := [{ dbId := "db-1", status := "available",
                      stopRejected := false }],
    lambdaFunctionCount := 3, s3BucketCount := 2 }

/-- Default-like configuration: auto-nuke off, dry run on. -/
def cfgSkip : Config :=
  { alertThreshold := 10, criticalThreshold := 50, enableAutoNuke := false,
    nukeDryRun := true, sendDailySummary := false }

/-- Auto-nuke on but still in dry-run mode. -/
def cfgDry : Config :=
  { cfgSkip with enableAutoNuke := true }

/-- Auto-nuke on, dry run off: the execute configuration. -/
def cfgExecute : Config :=
  { cfgSkip with enableAutoNuke := true, nukeDryRun := false }

/-- Auto-nuke off with the daily summary flag set. -/
def cfgSummary : Config :=
  { cfgSkip with sendDailySummary := true }

/-- A fetched cost below both default thresholds. -/
def ciLow : CostInfo := { total_cost := 5, service_breakdown := [] }

/-- A fetched cost above the default critical threshold. -/
def ciHigh : CostInfo :=
  { total_cost := 60, service_breakdown := [("EC2", 40), ("RDS", 20)] }

/-- C2: whenever the safety gate does not resolve to Execute, the
invocation makes zero mutating calls: no instance stop, no gateway
delete, no database pause; the trace holds only read-only inventory
calls, notifications and the gate read. -/
theorem C2_no_mutation_when_gate_not_execute (cfg : Config) (w : World)
    (ci : CostInfo) (fc : Option ℚ)
    (h : actionGate cfg.enableAutoNuke cfg.nukeDryRun ≠
      GateDecision.execute) :
    ((lambda_handler cfg w ci fc).2.filter (fun e => isMutating e)) = [] := by
  have h2 : cfg.enableAutoNuke = false ∨ cfg.nukeDryRun = true := by
    by_cases he : cfg.enableAutoNuke
    · by_cases hd : cfg.nukeDryRun
      · exact Or.inr hd
      · exact absurd (by simp [actionGate, he, hd]) h
    · exact Or.inl (by simpa using he)
  by_cases hc : cfg.criticalThreshold ≤ ci.total_cost
  · rcases h2 with he | hd
    · simp [lambda_handler, hc, trigger_nuke_warning,
        list_active_resources_trace, send_ntfy_alert,
        execute_resource_nuke, he, isMutating]
    · by_cases he2 : cfg.enableAutoNuke <;>
        simp [lambda_handler, hc, trigger_nuke_warning,
          list_active_resources_trace, send_ntfy_alert,
          execute_resource_nuke, he2, hd, isMutating]
  · by_cases ha : cfg.alertThreshold ≤ ci.total_cost
    · simp [lambda_handler, hc, ha, send_ntfy_alert, isMutating]
    · by_cases hd : cfg.sendDailySummary <;>
        simp [lambda_handler, hc, ha, hd, send_ntfy_alert, isMutating]

/-- C2 witness: a critical-cost run in dry-run mode over a world full
of resources makes no mutating call. -/
theorem C2_witness :
    ((lambda_handler cfgDry busyWorld ciHigh none).2.filter
      (fun e => isMutating e)) = [] :=
  C2_no_mutation_when_gate_not_execute cfgDry busyWorld ciHigh none
    (by decide)

/-- C3: the gate decision table.  Auto-action disabled yields Skip for
either dryRun value and the run still sends the notification that the
action was skipped and why; enabled with dryRun yields DryRun; enabled
without dryRun yields Execute. -/
theorem C3_action_gate_table (cfg : Config) (w : World) :
    (cfg.enableAutoNuke = false →
      actionGate cfg.enableAutoNuke cfg.nukeDryRun = GateDecision.skip ∧
      (execute_resource_nuke cfg w).1.status = "skipped" ∧
      Event.notify "Nuke Skipped - Manual Action Required" "high" ∈
        (execute_resource_nuke cfg w).2) ∧
    (cfg.enableAutoNuke = true → cfg.nukeDryRun = true →
      actionGate cfg.enableAutoNuke cfg.nukeDryRun = GateDecision.dryRun ∧
      (execute_resource_nuke cfg w).1.status = "dry_run") ∧
    (cfg.enableAutoNuke = true → cfg.nukeDryRun = false →
      actionGate cfg.enableAutoNuke cfg.nukeDryRun = GateDecision.execute ∧
      (execute_resource_nuke cfg w).1.status = "executed") := by
  refine ⟨fun he => ?_, fun he hd => ?_, fun he hd => ?_⟩
  · simp [actionGate, he, execute_resource_nuke, send_ntfy_alert]
  · simp [actionGate, he, hd, execute_resource_nuke]
  · simp [actionGate, he, hd, execute_resource_nuke]

/-- C3 witness: with auto-nuke disabled the gate skips, the nuke result
is the skipped status, and the skip notification is in the trace. -/
theorem C3_witness :
    actionGate cfgSkip.enableAutoNuke cfgSkip.nukeDryRun =
      GateDecision.skip ∧
    (execute_resource_nuke cfgSkip emptyWorld).1.status = "skipped" ∧
    Event.notify "Nuke Skipped - Manual Action Required" "high" ∈
      (execute_resource_nuke cfgSkip emptyWorld).2 :=
  (C3_action_gate_table cfgSkip emptyWorld).1 rfl

/-- C5 counterexample: with costs under both thresholds and
SEND_DAILY_SUMMARY set, the run sends the daily summary notification
yet returns alert_sent = false, so alert_sent is not true exactly when
a notification was sent. -/
theorem C5_counterexample :
    (lambda_handler cfgSummary emptyWorld ciLow none).1.alert_sent =
      false ∧
    ((lambda_handler cfgSummary emptyWorld ciLow none).2.filter
      (fun e => isNotify e)) = [Event.notify "AWS Cost Summary" "low"] := by
  decide

/-- C5 amended: the report reflects the run as follows: alert_sent is
true exactly when the tier is Alert or Critical (a Normal-tier daily
summary notification is sent without setting alert_sent);
nuke_triggered is true and nuke_result attached exactly when the tier
is Critical; some notification goes out exactly when the tier is not
Normal or the daily-summary flag is set; and the cost and threshold
fields echo the fetched cost and configuration. -/
theorem C5_amended_report (cfg : Config) (w : World) (ci : CostInfo)
    (fc : Option ℚ) :
    ((lambda_handler cfg w ci fc).1.alert_sent = true ↔
      classifyTier ci.total_cost cfg.alertThreshold cfg.criticalThreshold ≠
        Tier.normal) ∧
    ((lambda_handler cfg w ci fc).1.nuke_triggered = true ↔
      classifyTier ci.total_cost cfg.alertThreshold cfg.criticalThreshold =
        Tier.critical) ∧
    ((lambda_handler cfg w ci fc).1.nuke_result =
      if classifyTier ci.total_cost cfg.alertThreshold
           cfg.criticalThreshold = Tier.critical
       then some (execute_resource_nuke cfg w).1 else none) ∧
    ((lambda_handler cfg w ci fc).2.any (fun e => isNotify e) =
      (decide (classifyTier ci.total_cost cfg.alertThreshold
          cfg.criticalThreshold ≠ Tier.normal) || cfg.sendDailySummary)) ∧
    ((lambda_handler cfg w ci fc).1.current_cost = ci.total_cost) ∧
    ((lambda_handler cfg w ci fc).1.alert_threshold =
      cfg.alertThreshold) ∧
    ((lambda_handler cfg w ci fc).1.critical_threshold =
      cfg.criticalThreshold) := by
  by_cases hc : cfg.criticalThreshold ≤ ci.total_cost
  · simp [lambda_handler, hc, classifyTier, trigger_nuke_warning,
      list_active_resources_trace, send_ntfy_alert, isNotify]
  · by_cases ha : cfg.alertThreshold ≤ ci.total_cost
    · simp [lambda_handler, hc, ha, classifyTier, send_ntfy_alert,
        isNotify]
    · by_cases hd : cfg.sendDailySummary <;>
        simp [lambda_handler, hc, ha, hd, classifyTier, send_ntfy_alert,
          isNotify]

/-- C4: on every run that reaches the Critical tier, the pre-action
warning is in the trace, the gate read is in the trace, and everything
before the warning is neither a mutating action nor the gate read: the
warning precedes the gate and all action steps, whatever the gate then
decides. -/
theorem C4_warning_before_gate (cfg : Config) (w : World) (ci : CostInfo)
    (fc : Option ℚ) (h : cfg.criticalThreshold ≤ ci.total_cost) :
    Event.notify "CRITICAL: AWS Cost Emergency" "urgent" ∈
      (lambda_handler cfg w ci fc).2 ∧
    Event.gateEval cfg.enableAutoNuke cfg.nukeDryRun ∈
      (lambda_handler cfg w ci fc).2 ∧
    (((lambda_handler cfg w ci fc).2.takeWhile
        (fun e =>
          e != Event.notify "CRITICAL: AWS Cost Emergency" "urgent")).filter
      (fun e => isMutating e || isGateEval e)) = [] := by
  by_cases he : cfg.enableAutoNuke
  · by_cases hd : cfg.nukeDryRun
    · refine ⟨?_, ?_, ?_⟩ <;>
        simp [lambda_handler, h, trigger_nuke_warning,
          list_active_resources_trace, execute_resource_nuke, he, hd,
          send_ntfy_alert, List.takeWhile_cons, isMutating, isGateEval]
    · refine ⟨?_, ?_, ?_⟩ <;>
        simp [lambda_handler, h, trigger_nuke_warning,
          list_active_resources_trace, execute_resource_nuke, he, hd,
          send_ntfy_alert, List.takeWhile_cons, isMutating, isGateEval]
  · refine ⟨?_, ?_, ?_⟩ <;>
      simp [lambda_handler, h, trigger_nuke_warning,
        list_active_resources_trace, execute_resource_nuke, he,
        send_ntfy_alert, List.takeWhile_cons, isMutating, isGateEval]

/-- C4 witness: a critical run in the execute configuration over a busy
world has the warning in the trace before the gate read and before all
mutating calls. -/
theorem C4_witness :
    Event.notify "CRITICAL: AWS Cost Emergency" "urgent" ∈
      (lambda_handler cfgExecute busyWorld ciHigh none).2 ∧
    Event.gateEval cfgExecute.enableAutoNuke cfgExecute.nukeDryRun ∈
      (lambda_handler cfgExecute busyWorld ciHigh none).2 ∧
    (((lambda_handler cfgExecute busyWorld ciHigh none).2.takeWhile
        (fun e =>
          e != Event.notify "CRITICAL: AWS Cost Emergency" "urgent")).filter
      (fun e => isMutating e || isGateEval e)) = [] :=
  C4_warning_before_gate cfgExecute busyWorld ciHigh none
    (by norm_num [cfgExecute, cfgSkip, ciHigh])

/-- C6: in the execute path every category block is attempted whatever
failures the other categories hit — each describe call is in the trace
for every world — and exactly one completion notification is sent, as
the last event of the sequence. -/
theorem C6_execute_isolation_single_completion (cfg : Config) (w : World)
    (he : cfg.enableAutoNuke = true) (hd : cfg.nukeDryRun = false) :
    Event.describeInstances ∈ (execute_resource_nuke cfg w).2 ∧
    Event.describeNatGateways ∈ (execute_resource_nuke cfg w).2 ∧
    Event.describeDbInstances ∈ (execute_resource_nuke cfg w).2 ∧
    ((execute_resource_nuke cfg w).2.filter (fun e => isNotify e)) =
      [Event.notify "Resource Nuke Complete" "urgent"] ∧
    (execute_resource_nuke cfg w).2.getLast? =
      some (Event.notify "Resource Nuke Complete" "urgent") := by
  have htr : (execute_resource_nuke cfg w).2 =
      Event.gateEval cfg.enableAutoNuke cfg.nukeDryRun ::
        ((nukeEc2Block w).2.2 ++ ((nukeNatBlock w).2.2 ++
          ((nukeRdsBlock w).2.2 ++
            [Event.notify "Resource Nuke Complete" "urgent"]))) := by
    simp [execute_resource_nuke, he, hd, send_ntfy_alert]
  have hec2 : ((nukeEc2Block w).2.2.filter (fun e => isNotify e)) = [] := by
    refine List.filter_eq_nil_iff.mpr fun a ha => ?_
    rcases nukeEc2Block_events w a ha with h1 | h1 <;> simp [h1, isNotify]
  have hnat : ((nukeNatBlock w).2.2.filter (fun e => isNotify e)) = [] := by
    refine List.filter_eq_nil_iff.mpr fun a ha => ?_
    rcases nukeNatBlock_events w a ha with h1 | ⟨s, h1⟩ <;>
      simp [h1, isNotify]
  have hrds : ((nukeRdsBlock w).2.2.filter (fun e => isNotify e)) = [] := by
    refine List.filter_eq_nil_iff.mpr fun a ha => ?_
    rcases nukeRdsBlock_events w a ha with h1 | ⟨s, h1⟩ <;>
      simp [h1, isNotify]
  refine ⟨?_, ?_, ?_, ?_, ?_⟩
  · rw [htr]
    exact List.mem_cons_of_mem _
      (List.mem_append_left _ (nuke_blocks_describe_mem w).1)
  · rw [htr]
    exact List.mem_cons_of_mem _ (List.mem_append_right _
      (List.mem_append_left _ (nuke_blocks_describe_mem w).2.1))
  · rw [htr]
    exact List.mem_cons_of_mem _ (List.mem_append_right _
      (List.mem_append_right _
        (List.mem_append_left _ (nuke_blocks_describe_mem w).2.2)))
  · rw [htr, List.filter_cons, List.filter_append, hec2,
      List.filter_append, hnat, List.filter_append, hrds]
    rfl
  · rw [htr, List.getLast?_cons]
    simp [List.getLast?_append]

/-- A world mixing failures across categories: the EC2 describe raises,
the second NAT gateway delete raises, and one healthy database. -/
def wMixed : World :=
  { emptyWorld with
    describeInstancesFails := true,
    natGateways := [{ gwId := "nat-1", deleteFails := false },
                    { gwId := "nat-2", deleteFails := true }],
    dbInstances := [{ dbId := "db-1", status := "available",
                      stopRejected := false }] }

/-- C6 witness: over the mixed-failure world the execute path still
sends exactly one completion notification. -/
theorem C6_witness :
    ((execute_resource_nuke cfgExecute wMixed).2.filter
      (fun e => isNotify e)) =
      [Event.notify "Resource Nuke Complete" "urgent"] :=
  (C6_execute_isolation_single_completion cfgExecute wMixed rfl
    rfl).2.2.2.1

/-- A world whose only resource is one available RDS instance that
rejects the stop call. -/
def wRejectedDb : World :=
  { emptyWorld with
    dbInstances := [{ dbId := "db-1", status := "available",
                      stopRejected := true }] }

/-- C7 counterexample: in the execute path over a world with one
available database whose pause the database rejects, the stop call is
attempted (it is in the trace) yet the returned report records it in
neither the succeeded nor the failed list. -/
theorem C7_counterexample :
    Event.stopDbInstance "db-1" ∈
      (execute_resource_nuke cfgExecute wRejectedDb).2 ∧
    (execute_resource_nuke cfgExecute wRejectedDb).1.terminated = [] ∧
    (execute_resource_nuke cfgExecute wRejectedDb).1.errors = [] := by
  decide

/-- C7 amended: every attempted EC2 stop and gateway delete is
recorded in the succeeded or the failed list; per-database pauses are
attempted for exactly the available databases, but only the accepted
pauses are appended to the succeeded list and the loop never appends a
failure, so a rejected pause is silently dropped from both lists. -/
theorem C7_amended_attempt_recording (cfg : Config) (w : World)
    (he : cfg.enableAutoNuke = true) (hd : cfg.nukeDryRun = false) :
    (∀ s, Event.deleteNatGateway s ∈ (nukeNatBlock w).2.2 →
      ("Deleted NAT Gateway: " ++ s) ∈
          (execute_resource_nuke cfg w).1.terminated ∨
        "NAT Gateway: ClientError" ∈
          (execute_resource_nuke cfg w).1.errors) ∧
    (Event.stopInstances w.runningInstances ∈ (nukeEc2Block w).2.2 →
      ("Stopped " ++ toString w.runningInstances.length ++
          " EC2 instances") ∈ (execute_resource_nuke cfg w).1.terminated ∨
        "EC2: ClientError" ∈ (execute_resource_nuke cfg w).1.errors) ∧
    ((nukeDbLoop w.dbInstances).2 =
      (w.dbInstances.filter (fun d => d.status = "available")).map
        (fun d => Event.stopDbInstance d.dbId)) ∧
    ((nukeDbLoop w.dbInstances).1 =
      (w.dbInstances.filter
          (fun d => d.status = "available" ∧ ¬d.stopRejected)).map
        (fun d => "Stopped RDS: " ++ d.dbId)) ∧
    ((nukeRdsBlock w).2.1 =
      if w.describeDbsFails then ["RDS: ClientError"] else []) := by
  have hterm : (execute_resource_nuke cfg w).1.terminated =
      (nukeEc2Block w).1 ++ ((nukeNatBlock w).1 ++ (nukeRdsBlock w).1) := by
    simp [execute_resource_nuke, he, hd]
  have herr : (execute_resource_nuke cfg w).1.errors =
      (nukeEc2Block w).2.1 ++
        ((nukeNatBlock w).2.1 ++ (nukeRdsBlock w).2.1) := by
    simp [execute_resource_nuke, he, hd]
  refine ⟨fun s hs => ?_, fun hs => ?_, nukeDbLoop_events _,
    nukeDbLoop_terminated _, ?_⟩
  · unfold nukeNatBlock at hs
    by_cases hf : w.describeNatFails
    · simp [hf] at hs
    · simp [hf] at hs
      rcases nukeNatLoop_attempt_recorded _ _ hs with h1 | h1
      · refine Or.inl ?_
        rw [hterm]
        refine List.mem_append_right _ (List.mem_append_left _ ?_)
        simpa [nukeNatBlock, hf] using h1
      · refine Or.inr ?_
        rw [herr]
        refine List.mem_append_right _ (List.mem_append_left _ ?_)
        simpa [nukeNatBlock, hf] using h1
  · unfold nukeEc2Block at hs
    by_cases h1 : w.describeInstancesFails
    · simp [h1] at hs
    · by_cases h2 : w.runningInstances.isEmpty
      · simp [h1, h2] at hs
      · by_cases h3 : w.stopInstancesFails
        · refine Or.inr ?_
          rw [herr]
          refine List.mem_append_left _ ?_
          simp [nukeEc2Block, h1, h2, h3]
        · refine Or.inl ?_
          rw [hterm]
          refine List.mem_append_left _ ?_
          simp [nukeEc2Block, h1, h2, h3]
  · by_cases hf : w.describeDbsFails <;> simp [nukeRdsBlock, hf]

/-- C7 witness of the amended claim: in the execute path over the
rejected-database world, the attempted stop calls are exactly the
available databases. -/
theorem C7_witness :
    (nukeDbLoop wRejectedDb.dbInstances).2 =
      (wRejectedDb.dbInstances.filter
          (fun d => d.status = "available")).map
        (fun d => Event.stopDbInstance d.dbId) :=
  (C7_amended_attempt_recording cfgExecute wRejectedDb rfl rfl).2.2.1

/-- C9: inside the gateway category the loop is not isolated: with the
gateways before g all deleting cleanly and g failing, the deletes
attempted are exactly those before g plus g itself — the gateways after
g are never attempted in this invocation — while the deletes already
issued stay recorded as succeeded and the category failure is
recorded. -/
theorem C9_gateway_failures_not_isolated (cfg : Config) (w : World)
    (pre : List NatGateway) (g : NatGateway) (post : List NatGateway)
    (he : cfg.enableAutoNuke = true) (hd : cfg.nukeDryRun = false)
    (hw : w.natGateways = pre ++ g :: post)
    (hnd : w.describeNatFails = false)
    (hpre : ∀ p ∈ pre, p.deleteFails = false)
    (hg : g.deleteFails = true) :
    ((execute_resource_nuke cfg w).2.filter (fun e => isDeleteNat e)) =
      pre.map (fun p => Event.deleteNatGateway p.gwId) ++
        [Event.deleteNatGateway g.gwId] ∧
    (∀ p ∈ pre, ("Deleted NAT Gateway: " ++ p.gwId) ∈
      (execute_resource_nuke cfg w).1.terminated) ∧
    "NAT Gateway: ClientError" ∈ (execute_resource_nuke cfg w).1.errors := by
  have hloop := nukeNatLoop_break pre g post hpre hg
  have htr : (execute_resource_nuke cfg w).2 =
      Event.gateEval cfg.enableAutoNuke cfg.nukeDryRun ::
        ((nukeEc2Block w).2.2 ++ ((nukeNatBlock w).2.2 ++
          ((nukeRdsBlock w).2.2 ++
            [Event.notify "Resource Nuke Complete" "urgent"]))) := by
    simp [execute_resource_nuke, he, hd, send_ntfy_alert]
  have hterm : (execute_resource_nuke cfg w).1.terminated =
      (nukeEc2Block w).1 ++ ((nukeNatBlock w).1 ++ (nukeRdsBlock w).1) := by
    simp [execute_resource_nuke, he, hd]
  have herr : (execute_resource_nuke cfg w).1.errors =
      (nukeEc2Block w).2.1 ++
        ((nukeNatBlock w).2.1 ++ (nukeRdsBlock w).2.1) := by
    simp [execute_resource_nuke, he, hd]
  have hnatev : (nukeNatBlock w).2.2 =
      Event.describeNatGateways ::
        (pre.map (fun p => Event.deleteNatGateway p.gwId) ++
          [Event.deleteNatGateway g.gwId]) := by
    simp [nukeNatBlock, hnd, hw, hloop]
  have hnatterm : (nukeNatBlock w).1 =
      pre.map (fun p => "Deleted NAT Gateway: " ++ p.gwId) := by
    simp [nukeNatBlock, hnd, hw, hloop]
  have hnaterr : (nukeNatBlock w).2.1 = ["NAT Gateway: ClientError"] := by
    simp [nukeNatBlock, hnd, hw, hloop]
  have hfec2 : ((nukeEc2Block w).2.2.filter (fun e => isDeleteNat e)) = [] := by
    refine List.filter_eq_nil_iff.mpr fun a ha => ?_
    rcases nukeEc2Block_events w a ha with h1 | h1 <;>
      simp [h1, isDeleteNat]
  have hfrds : ((nukeRdsBlock w).2.2.filter (fun e => isDeleteNat e)) = [] := by
    refine List.filter_eq_nil_iff.mpr fun a ha => ?_
    rcases nukeRdsBlock_events w a ha with h1 | ⟨s, h1⟩ <;>
      simp [h1, isDeleteNat]
  have hfnat : ((nukeNatBlock w).2.2.filter (fun e => isDeleteNat e)) =
      pre.map (fun p => Event.deleteNatGateway p.gwId) ++
        [Event.deleteNatGateway g.gwId] := by
    rw [hnatev, List.filter_cons]
    have hall : ∀ a ∈ pre.map (fun p => Event.deleteNatGateway p.gwId) ++
        [Event.deleteNatGateway g.gwId], isDeleteNat a := by
      intro a ha
      rcases List.mem_append.mp ha with h1 | h1
      · rcases List.mem_map.mp h1 with ⟨p, _, hp⟩
        simp [← hp, isDeleteNat]
      · simp at h1
        simp [h1, isDeleteNat]
    rw [List.filter_eq_self.mpr hall]
    rfl
  refine ⟨?_, fun p hp => ?_, ?_⟩
  · rw [htr, List.filter_cons, List.filter_append, hfec2,
      List.filter_append, hfnat, List.filter_append, hfrds]
    simp [isDeleteNat]
  · rw [hterm]
    refine List.mem_append_right _ (List.mem_append_left _ ?_)
    rw [hnatterm]
    exact List.mem_map_of_mem _ hp
  · rw [herr]
    refine List.mem_append_right _ (List.mem_append_left _ ?_)
    rw [hnaterr]
    exact List.mem_singleton_self _

/-- A world with three NAT gateways of which the second fails to
delete. -/
def wNatBreak : World :=
  { emptyWorld with
    natGateways := [{ gwId := "nat-1", deleteFails := false },
                    { gwId := "nat-2", deleteFails := true },
                    { gwId := "nat-3", deleteFails := false }] }

/-- C9 witness: with gateways nat-1, nat-2, nat-3 and nat-2 failing,
the deletes attempted in the whole invocation are exactly nat-1 then
nat-2 — nat-3 is never attempted. -/
theorem C9_witness :
    ((execute_resource_nuke cfgExecute wNatBreak).2.filter
      (fun e => isDeleteNat e)) =
      ([{ gwId := "nat-1", deleteFails := false }] :
          List NatGateway).map (fun p => Event.deleteNatGateway p.gwId) ++
        [Event.deleteNatGateway "nat-2"] :=
  (C9_gateway_failures_not_isolated cfgExecute wNatBreak
    [{ gwId := "nat-1", deleteFails := false }]
    { gwId := "nat-2", deleteFails := true }
    [{ gwId := "nat-3", deleteFails := false }]
    rfl rfl rfl rfl (by decide) rfl).1

end CostAlerter
